import Mathlib

/-!
Formal model of the crm-dashboard frontend's data-fetching and
state-reconciliation layer, together with theorems about its filtering
pipeline, optimistic tag mutations, communication-log handling, toast
notifications, API-client error messages and the login action.

Each definition is a shallow embedding of a function or state slice of the
TypeScript source; the source file and lines are named in the doc comments.
Asynchronous handlers are split into the state at the suspension point
(the moment the network request is fired) and a resolve function applied
to the network outcome, mirroring the single-threaded await semantics.
-/

/-- Character-list version of JavaScript `String.prototype.startsWith`. -/
def startsWithL : List Char → List Char → Bool
  | _, [] => true
  | [], _ :: _ => false
  | h :: t, n :: m => (h == n) && startsWithL t m

/-- Character-list version of JavaScript `String.prototype.includes`:
`containsSubL hay needle` is true when `needle` occurs contiguously in `hay`. -/
def containsSubL : List Char → List Char → Bool
  | [], needle => needle.isEmpty
  | h :: t, needle => startsWithL (h :: t) needle || containsSubL t needle

/-- JavaScript `hay.includes(needle)` on strings. -/
def containsSubstr (hay needle : String) : Bool :=
  containsSubL hay.data needle.data

/-- JavaScript `String.prototype.toLowerCase` (ASCII range), written over
the character list so that it evaluates by kernel reduction. -/
def toLowerStr (s : String) : String :=
  String.mk (s.data.map Char.toLower)

/-- Student summary record, from `src/nextjs-frontend/lib/api/students.ts`
lines 4-12 (the shape listed by the directory). -/
structure Student where
  id : String
  name : String
  email : String
  country : Option String
  application_status : String
  last_active : Option String
  tags : Option (List String)
deriving DecidableEq

/-- Student profile record, from `src/nextjs-frontend/lib/api/students.ts`
lines 15-25; the same shape is re-declared as `Student` in
`app/dashboard/student/[studentId]/page.tsx` lines 25-35. -/
structure StudentProfile where
  id : String
  name : String
  email : String
  phone : Option String
  country : Option String
  application_status : String
  last_active : Option String
  tags : Option (List String)
  internal_notes : Option String
deriving DecidableEq

/-- Communication log record, from `students.ts` lines 28-34 and
`page.tsx` lines 37-43. -/
structure CommunicationLog where
  id : String
  student_id : String
  type : String
  content : Option String
  timestamp : String
deriving DecidableEq

/-- Toast kind, from the `'success' | 'error'` union in `page.tsx` line 48. -/
inductive ToastType where
  | success
  | error
deriving DecidableEq

/-- Toast record, from `page.tsx` lines 45-49; `id` is `Date.now()` in ms. -/
structure Toast where
  id : Nat
  message : String
  type : ToastType
deriving DecidableEq

/-- Aggregate stats record, from `students.ts` lines 42-48. -/
structure StudentStats where
  activeStudents : Nat
  applyingStage : Nat
  needsEssayHelp : Nat
  highIntent : Nat
  notContactedRecently : Nat
deriving DecidableEq

/-! ## Directory view model (src/unnamed/part_000, StudentDirectory.tsx) -/

/-- Text search step, `StudentDirectory.tsx` lines 71-75: case-insensitive
substring match of the search box text against the student name only. -/
def searched (search : String) (students : List Student) : List Student :=
  students.filter (fun student => containsSubstr (toLowerStr student.name) (toLowerStr search))

/-- Status filter step, `StudentDirectory.tsx` lines 77-82: pass-through on
the sentinel "all", otherwise exact match on `application_status`. -/
def filteredStatus (status : String) (students : List Student) : List Student :=
  if status == "all" then students
  else students.filter (fun student => student.application_status == status)

/-- Country filter step, `StudentDirectory.tsx` lines 84-89. -/
def filteredCountry (country : String) (students : List Student) : List Student :=
  if country == "all" then students
  else students.filter (fun student => student.country == some country)

/-- Tag filter step, `StudentDirectory.tsx` lines 91-96: pass-through on an
empty selection, otherwise the student's (non-null) tag list must contain
every selected tag. -/
def filteredTags (selectedTags : List String) (students : List Student) : List Student :=
  if selectedTags.isEmpty then students
  else students.filter (fun student =>
    match student.tags with
    | none => false
    | some ts => selectedTags.all (fun tag => ts.contains tag))

/-- The search predicate of `searched` as a standalone boolean predicate. -/
def searchPred (search : String) (student : Student) : Bool :=
  containsSubstr (toLowerStr student.name) (toLowerStr search)

/-- The status predicate, with the sentinel branch folded in as a disjunct. -/
def statusPred (status : String) (student : Student) : Bool :=
  (status == "all") || (student.application_status == status)

/-- The country predicate, with the sentinel branch folded in as a disjunct. -/
def countryPred (country : String) (student : Student) : Bool :=
  (country == "all") || (student.country == some country)

/-- The tag predicate, with the empty-selection branch folded in as a disjunct. -/
def tagsPred (selectedTags : List String) (student : Student) : Bool :=
  selectedTags.isEmpty ||
    (match student.tags with
     | none => false
     | some ts => selectedTags.all (fun tag => ts.contains tag))

/-- The displayed table rows, `StudentDirectory.tsx` lines 209 and 216:
`filteredTags(filteredCountry(filteredStatus(searched(students))))`. -/
def displayedStudents (search status country : String) (selectedTags : List String)
    (students : List Student) : List Student :=
  filteredTags selectedTags (filteredCountry country (filteredStatus status (searched search students)))

/-- A boolean predicate as a list-filtering step. -/
def mkFilter {α : Type} (q : α → Bool) : List α → List α :=
  fun l => l.filter q

/-- Sequential application of filtering steps, first step applied first. -/
def applySteps {α : Type} (fs : List (List α → List α)) (L : List α) : List α :=
  fs.foldl (fun acc f => f acc) L

/-- The four filter predicates in the order the source composes them. -/
def stepPreds (search status country : String) (selectedTags : List String) :
    List (Student → Bool) :=
  [searchPred search, statusPred status, countryPred country, tagsPred selectedTags]

/-- Directory fetch/display state: `students`, `loading`, `error` from
`StudentDirectory.tsx` lines 33-35. -/
structure DirectoryState where
  students : List Student
  loading : Bool
  error : Option String
deriving DecidableEq

/-- Failure branch of the directory's initial fetch, `StudentDirectory.tsx`
lines 48-53: records the message and clears the loading flag. -/
def directoryFetchFailure (msg : String) (st : DirectoryState) : DirectoryState :=
  { st with error := some msg, loading := false }

/-- Success branch of the directory's initial fetch, lines 45-47. -/
def directoryFetchSuccess (data : List Student) (st : DirectoryState) : DirectoryState :=
  { st with students := data, loading := false }

/-- What the directory renders, `StudentDirectory.tsx` lines 59-65 and 209. -/
inductive DirectoryView where
  | loadingView
  | errorView (msg : String)
  | tableView (rows : List Student)
deriving DecidableEq

/-- Render function of the directory: loading gate, then error gate, then
the filtered table. -/
def renderDirectory (search status country : String) (selectedTags : List String)
    (st : DirectoryState) : DirectoryView :=
  if st.loading then DirectoryView.loadingView
  else
    match st.error with
    | some m => DirectoryView.errorView m
    | none => DirectoryView.tableView (displayedStudents search status country selectedTags st.students)

/-! ## Profile view model (page.tsx) -/

/-- The state slices of the student profile page (`page.tsx` lines 85-98)
that the modeled handlers read or write.  `timers` is the set of pending
`setTimeout` callbacks scheduled by `showToast`, recorded as
(fire time, toast id) pairs. -/
structure ProfileState where
  student : Option StudentProfile
  loading : Bool
  error : Option String
  notes : String
  selectedTags : List String
  toasts : List Toast
  timers : List (Nat × Nat)
  communicationLogs : List CommunicationLog
  newLogType : String
  newLogContent : String
  isAddLogModalOpen : Bool
deriving DecidableEq

/-- The initial profile page state, from the `useState` initializers in
`page.tsx` lines 85-96. -/
def profileInit : ProfileState :=
  { student := none, loading := true, error := none, notes := "", selectedTags := [],
    toasts := [], timers := [], communicationLogs := [], newLogType := "Email",
    newLogContent := "", isAddLogModalOpen := false }

/-- `showToast`, `page.tsx` lines 100-109: appends a toast whose id is the
current clock value and schedules a one-shot removal of that id 3000 ms
(3 seconds) after post time. -/
def showToast (now : Nat) (message : String) (ty : ToastType) (st : ProfileState) : ProfileState :=
  { st with toasts := st.toasts ++ [{ id := now, message := message, type := ty }],
            timers := st.timers ++ [(now + 3000, now)] }

/-- `removeToast`, `page.tsx` lines 111-113: explicit dismissal filters the
queue by id. -/
def removeToast (id : Nat) (st : ProfileState) : ProfileState :=
  { st with toasts := st.toasts.filter (fun t => t.id != id) }

/-- The body of the `setTimeout` callback scheduled in `showToast`
(`page.tsx` lines 106-108): filters the queue by the captured id; the fired
timer is consumed from the pending set. -/
def fireToastTimer (fireTime id : Nat) (st : ProfileState) : ProfileState :=
  { st with toasts := st.toasts.filter (fun t => t.id != id),
            timers := st.timers.erase (fireTime, id) }

/-- Success branch of the profile's initial fetch, `page.tsx` lines 122-126. -/
def fetchStudentSuccess (data : StudentProfile) (st : ProfileState) : ProfileState :=
  { st with student := some data, selectedTags := data.tags.getD [],
            notes := data.internal_notes.getD "", loading := false }

/-- Failure branch of the profile's initial fetch, `page.tsx` lines 127-130. -/
def fetchStudentFailure (msg : String) (st : ProfileState) : ProfileState :=
  { st with error := some msg, loading := false }

/-- Success branch of `fetchCommunicationLogs`, `page.tsx` lines 143-144. -/
def fetchCommunicationLogsSuccess (data : List CommunicationLog) (st : ProfileState) : ProfileState :=
  { st with communicationLogs := data }

/-- Failure branch of `fetchCommunicationLogs`, `page.tsx` lines 145-147:
the catch block only writes to the console, so the view state is unchanged. -/
def fetchCommunicationLogsFailure (st : ProfileState) : ProfileState :=
  st

/-- What the profile page renders, `page.tsx` lines 331-341 and 548-560:
loading gate, error gate, not-found gate, then the page whose tag chips are
drawn from `selectedTags`. -/
inductive ProfileView where
  | loadingView
  | errorView (msg : String)
  | notFoundView
  | profilePage (tagChips : List String)
deriving DecidableEq

/-- Render function of the profile page. -/
def renderProfile (st : ProfileState) : ProfileView :=
  if st.loading then ProfileView.loadingView
  else
    match st.error with
    | some m => ProfileView.errorView m
    | none =>
      match st.student with
      | none => ProfileView.notFoundView
      | some _ => ProfileView.profilePage st.selectedTags

/-- The tag chips the page displays (`page.tsx` lines 548-560 render
`selectedTags`, not `student.tags`). -/
def displayedTagChips (st : ProfileState) : List String :=
  st.selectedTags

/-- The optimistic tag computation of `handleTagChange`, `page.tsx` lines
260-262: append the tag when the checkbox reports checked, otherwise drop
every occurrence of it.  (`selectedTags || []` in the source is a null
guard; the state field is never null.) -/
def computeNewTags (selectedTags : List String) (tag : String) (isChecked : Bool) : List String :=
  if isChecked then selectedTags ++ [tag]
  else selectedTags.filter (fun t => t != tag)

/-- Phase up to the suspension point of `handleTagChange`, `page.tsx` lines
259-265: the optimistic value is written to `selectedTags` before the
network call is issued. -/
def handleTagChangeOptimistic (tag : String) (isChecked : Bool) (st : ProfileState) : ProfileState :=
  { st with selectedTags := computeNewTags st.selectedTags tag isChecked }

/-- The `student?.tags || []` value used by the rollback, `page.tsx` line 291. -/
def confirmedTags (st : ProfileState) : List String :=
  st.student.elim [] (fun s => s.tags.getD [])

/-- Continuation of `handleTagChange` once the network call resolves,
`page.tsx` lines 281-293.  On success only the `student` slice is replaced
with the response; on failure `selectedTags` is overwritten with
`student?.tags || []` and an error toast carrying the failure message is
posted. -/
def handleTagChangeResolve (now : Nat) (result : Except String StudentProfile)
    (st : ProfileState) : ProfileState :=
  match result with
  | Except.ok updatedStudent => { st with student := some updatedStudent }
  | Except.error emsg =>
      showToast now ("Error: " ++ emsg) ToastType.error
        { st with selectedTags := confirmedTags st }

/-- The request body of `handleAddLog`, `page.tsx` lines 303-307. -/
structure AddLogPayload where
  student_id : String
  type : String
  content : String
deriving DecidableEq

/-- Phase up to the suspension point of `handleAddLog`, `page.tsx` lines
296-308: no state update precedes the create call, so the state at the
suspension point is the input state unchanged, paired with the payload. -/
def handleAddLogFire (studentId : String) (st : ProfileState) : ProfileState × AddLogPayload :=
  (st, { student_id := studentId, type := st.newLogType, content := st.newLogContent })

/-- Continuation of `handleAddLog` once the create call resolves, `page.tsx`
lines 310-328: on success the returned entry is prepended, the form is
reset, the modal is closed and a success toast is posted; on failure only
an error toast is posted. -/
def handleAddLogResolve (now : Nat) (result : Except String CommunicationLog)
    (st : ProfileState) : ProfileState :=
  match result with
  | Except.ok newLog =>
      showToast now "Communication log added successfully!" ToastType.success
        { st with communicationLogs := newLog :: st.communicationLogs,
                  newLogType := "Email", newLogContent := "", isAddLogModalOpen := false }
  | Except.error _ =>
      showToast now "Failed to add communication log. Please try again." ToastType.error st

/-! ## API client error messages (src/nextjs-frontend/lib/api/students.ts) -/

/-- The API client operations of `students.ts`. -/
inductive ApiOp where
  | getStudents
  | getStudentProfile
  | getCommunicationLogs
  | getAiSummary
  | sendFollowUpEmail
  | updateStudentNotes
  | updateStudentTags
  | addCommunicationLog
  | getStudentStats
deriving DecidableEq

/-- The message of the `Error` each operation throws on a non-2xx response,
given the HTTP status and (where the source reads it) the response body
text.  From `students.ts` lines 64-65, 83-84, 102-103, 121-122, 140-141,
158-159, 178-180, 207-208 and 226-227. -/
def apiErrorMessage : ApiOp → Nat → String → String
  | ApiOp.getStudents, status, _ => "Failed to fetch students. Status: " ++ toString status
  | ApiOp.getStudentProfile, status, _ => "Failed to fetch student profile. Status: " ++ toString status
  | ApiOp.getCommunicationLogs, status, _ => "Failed to fetch communication logs. Status: " ++ toString status
  | ApiOp.getAiSummary, status, _ => "Failed to fetch AI summary. Status: " ++ toString status
  | ApiOp.sendFollowUpEmail, status, _ => "Failed to send email. Status: " ++ toString status
  | ApiOp.updateStudentNotes, status, _ => "Failed to save notes. Status: " ++ toString status
  | ApiOp.updateStudentTags, status, body => "Failed to update tags: " ++ toString status ++ " " ++ body
  | ApiOp.addCommunicationLog, status, _ => "Failed to add communication log. Status: " ++ toString status
  | ApiOp.getStudentStats, _, _ => "Failed to fetch student statistics"

/-! ## Stats summary view (StudentDirectorySummary.tsx) -/

/-- State of the stats summary card, `StudentDirectorySummary.tsx` lines
79-81.  `isError` is declared with `useState(false)` and no setter. -/
structure SummaryState where
  stats : Option StudentStats
  isLoading : Bool
  isError : Bool
deriving DecidableEq

/-- The initial summary state. -/
def summaryInit : SummaryState :=
  { stats := none, isLoading := true, isError := false }

/-- Success branch of the stats fetch, lines 88-91. -/
def statsFetchSuccess (data : StudentStats) (st : SummaryState) : SummaryState :=
  { st with stats := some data, isLoading := false }

/-- Failure branch of the stats fetch, lines 92-106: the catch block only
logs to the console and clears the loading flag; `isError` cannot change
because its setter was never created. -/
def statsFetchFailure (st : SummaryState) : SummaryState :=
  { st with isLoading := false }

/-- What the summary card renders, lines 117-174: loading gate, the (dead)
error gate, then the five counters with `stats?.field || 0` defaults. -/
inductive SummaryView where
  | loadingView
  | errorView
  | statsView (active applying essay intent notContacted : Nat)
deriving DecidableEq

/-- Render function of the stats summary card. -/
def renderSummary (st : SummaryState) : SummaryView :=
  if st.isLoading then SummaryView.loadingView
  else if st.isError then SummaryView.errorView
  else
    SummaryView.statsView
      (st.stats.elim 0 (fun d => d.activeStudents))
      (st.stats.elim 0 (fun d => d.applyingStage))
      (st.stats.elim 0 (fun d => d.needsEssayHelp))
      (st.stats.elim 0 (fun d => d.highIntent))
      (st.stats.elim 0 (fun d => d.notContactedRecently))

/-! ## Login action (src/nextjs-frontend/components/actions/login-action.ts
and the variant in src/unnamed/part_001) -/

/-- The cookie set on successful login, with the options of
`login-action.ts` lines 79-85. -/
structure Cookie where
  name : String
  value : String
  httpOnly : Bool
  secure : Bool
  sameSite : String
  path : String
  maxAge : Nat
deriving DecidableEq

/-- Outcome of the `fetch` to `/auth/jwt/login`: a 2xx response whose JSON
body carries `access_token`, a non-2xx response with its status and body
text, or a thrown network error. -/
inductive FetchResult where
  | success (accessToken : String)
  | httpError (status : Nat) (bodyText : String)
  | networkError (msg : String)
deriving DecidableEq

/-- Result of the login action as seen by its caller. -/
inductive LoginOutcome where
  | validationErrors
  | serverValidationError (message : String) (status : Nat)
  | serverError (details : String)
  | redirectSignal (message : String)
deriving DecidableEq

/-- The message of the control-flow error thrown by Next.js `redirect`;
the source recognizes it by `err.message.includes('NEXT_REDIRECT')`
(`login-action.ts` line 94). -/
def nextRedirectMessage (target : String) : String :=
  "NEXT_REDIRECT;" ++ target

/-- Result of the try block of `login`: either a returned value or a thrown
error message, in both cases together with the cookie written so far. -/
inductive TryResult where
  | returned (outcome : LoginOutcome) (cookie : Option Cookie)
  | threw (msg : String) (cookie : Option Cookie)
deriving DecidableEq

/-- `login` from `login-action.ts` lines 9-105.  `validationOk` abstracts
`loginSchema.safeParse` and `getMsg` abstracts `getErrorMessage` (both live
in `lib/definitions` / `lib/utils`, outside the modeled sources); `isProd`
is `NODE_ENV === 'production'`.  The try block sets the cookie and then
`redirect("/dashboard")` throws; the catch re-throws any error whose
message contains `NEXT_REDIRECT` and converts everything else into a
`server_error` return. -/
def login (validationOk : Bool) (resp : FetchResult) (isProd : Bool)
    (getMsg : String → String) : LoginOutcome × Option Cookie :=
  if !validationOk then (LoginOutcome.validationErrors, none)
  else
    let tryResult : TryResult :=
      match resp with
      | FetchResult.networkError m => TryResult.threw m none
      | FetchResult.httpError status body =>
          TryResult.returned (LoginOutcome.serverValidationError (getMsg body) status) none
      | FetchResult.success token =>
          TryResult.threw (nextRedirectMessage "/dashboard")
            (some { name := "accessToken", value := token, httpOnly := true,
                    secure := isProd, sameSite := "lax", path := "/",
                    maxAge := 60 * 60 * 24 * 7 })
    match tryResult with
    | TryResult.returned o c => (o, c)
    | TryResult.threw m c =>
        if containsSubstr m "NEXT_REDIRECT" then (LoginOutcome.redirectSignal m, c)
        else (LoginOutcome.serverError m, c)

/-- The reworked login variant in `src/unnamed/part_001` lines 140-233: the
cookie write and `redirect("/dashboard")` sit outside the try/catch, so the
redirect signal propagates without passing through a catch block. -/
def loginV2 (validationOk : Bool) (resp : FetchResult) (isProd : Bool)
    (getMsg : String → String) : LoginOutcome × Option Cookie :=
  if !validationOk then (LoginOutcome.validationErrors, none)
  else
    match resp with
    | FetchResult.networkError m => (LoginOutcome.serverError m, none)
    | FetchResult.httpError status body =>
        (LoginOutcome.serverValidationError (getMsg body) status, none)
    | FetchResult.success token =>
        (LoginOutcome.redirectSignal (nextRedirectMessage "/dashboard"),
         some { name := "accessToken", value := token, httpOnly := true,
                secure := isProd, sameSite := "lax", path := "/",
                maxAge := 60 * 60 * 24 * 7 })

/-! ## Concrete sample data used by witnesses and counterexamples -/

/-- A small directory list exercising all four filters. -/
def sampleStudents : List Student :=
  [ { id := "s1", name := "Ada Lovelace", email := "ada@example.com", country := some "UK",
      application_status := "Applying", last_active := none, tags := some ["High intent"] },
    { id := "s2", name := "Alan Turing", email := "alan@example.com", country := some "UK",
      application_status := "Exploring", last_active := none, tags := some ["High intent"] },
    { id := "s3", name := "Grace Hopper", email := "grace@example.com", country := some "USA",
      application_status := "Applying", last_active := none, tags := none } ]

/-- A freshly fetched profile with one tag. -/
def sampleProfile : StudentProfile :=
  { id := "s1", name := "Ada Lovelace", email := "ada@example.com", phone := none,
    country := some "UK", application_status := "Applying", last_active := none,
    tags := some ["High intent"], internal_notes := none }

/-- A server response to a tag patch whose tags match the pre-mutation set
(the server did not keep the optimistically added tag). -/
def serverProfile1 : StudentProfile :=
  { sampleProfile with tags := some ["High intent"] }

/-- A server response to a tag patch whose tags differ from the client's
optimistic computation. -/
def serverProfile2 : StudentProfile :=
  { sampleProfile with tags := some ["Server truth"] }

/-- Profile page state right after the initial fetch of `sampleProfile`. -/
def loadedProfileState : ProfileState :=
  fetchStudentSuccess sampleProfile profileInit

/-- Profile page state after one full tag-toggle round trip: toggling
"Needs essay help" on optimistically and then confirming with
`serverProfile1`.  Here `selectedTags` (the optimistic value, kept on
success) differs from `student.tags` (the confirmed value). -/
def afterFirstToggle : ProfileState :=
  handleTagChangeResolve 1 (Except.ok serverProfile1)
    (handleTagChangeOptimistic "Needs essay help" true loadedProfileState)

/-! ## Substring-containment lemmas -/

theorem startsWithL_append : ∀ (b c : List Char), startsWithL (b ++ c) b = true := by
  intro b
  induction b with
  | nil => intro c; cases c <;> rfl
  | cons h t ih => intro c; simp [startsWithL, ih]

theorem containsSubL_nil : ∀ (h : List Char), containsSubL h [] = true := by
  intro h
  cases h with
  | nil => rfl
  | cons x t => simp [containsSubL, startsWithL]

theorem containsSubL_self_append : ∀ (b c : List Char), containsSubL (b ++ c) b = true := by
  intro b c
  cases b with
  | nil => simpa using containsSubL_nil c
  | cons x t =>
    have h1 := startsWithL_append (x :: t) c
    simp [containsSubL]
    simp at h1
    simp [h1]

theorem containsSubL_prepend :
    ∀ (a h n : List Char), containsSubL h n = true → containsSubL (a ++ h) n = true := by
  intro a
  induction a with
  | nil => intro h n hh; simpa using hh
  | cons x t ih => intro h n hh; simp [containsSubL, ih h n hh]

theorem containsSubL_refl : ∀ (b : List Char), containsSubL b b = true := by
  intro b
  have h := containsSubL_self_append b []
  simpa using h

theorem containsSubstr_suffix : ∀ (a b : String), containsSubstr (a ++ b) b = true := by
  intro a b
  unfold containsSubstr
  rw [String.data_append]
  exact containsSubL_prepend a.data b.data b.data (containsSubL_refl b.data)

theorem containsSubstr_middle : ∀ (a b c : String), containsSubstr (a ++ (b ++ c)) b = true := by
  intro a b c
  unfold containsSubstr
  rw [String.data_append, String.data_append]
  exact containsSubL_prepend a.data _ _ (containsSubL_self_append b.data c.data)

/-! ## Filter-pipeline lemmas -/

theorem all_of_perm {α : Type} {l₁ l₂ : List (α → Bool)} (h : l₁.Perm l₂) :
    ∀ a, l₁.all (fun q => q a) = l₂.all (fun q => q a) := by
  induction h with
  | nil => intro a; rfl
  | cons x _ ih => intro a; simp [List.all_cons, ih a]
  | swap x y l => intro a; simp [List.all_cons, Bool.and_left_comm]
  | trans _ _ ih₁ ih₂ => intro a; rw [ih₁ a, ih₂ a]

theorem applySteps_map_mkFilter {α : Type} :
    ∀ (qs : List (α → Bool)) (L : List α),
      applySteps (qs.map mkFilter) L = L.filter (fun a => qs.all (fun q => q a)) := by
  intro qs
  induction qs with
  | nil => intro L; simp [applySteps, List.all_nil, List.filter_true]
  | cons q qs ih =>
    intro L
    have h1 : applySteps ((q :: qs).map mkFilter) L = applySteps (qs.map mkFilter) (L.filter q) := rfl
    rw [h1, ih, List.filter_filter]
    exact List.filter_congr (fun a _ => by simp [List.all_cons, Bool.and_comm])

theorem searched_eq (se : String) : searched se = mkFilter (searchPred se) := rfl

theorem filteredStatus_eq (stv : String) : filteredStatus stv = mkFilter (statusPred stv) := by
  funext L
  by_cases h : stv = "all"
  · subst h
    simp [filteredStatus, mkFilter]
    exact (List.filter_eq_self.mpr (fun a _ => by simp [statusPred])).symm
  · have hb : (stv == "all") = false := beq_eq_false_iff_ne.mpr h
    simp [filteredStatus, mkFilter, hb]
    exact List.filter_congr (fun a _ => by simp [statusPred, hb])

theorem filteredCountry_eq (co : String) : filteredCountry co = mkFilter (countryPred co) := by
  funext L
  by_cases h : co = "all"
  · subst h
    simp [filteredCountry, mkFilter]
    exact (List.filter_eq_self.mpr (fun a _ => by simp [countryPred])).symm
  · have hb : (co == "all") = false := beq_eq_false_iff_ne.mpr h
    simp [filteredCountry, mkFilter, hb]
    exact List.filter_congr (fun a _ => by simp [countryPred, hb])

theorem filteredTags_eq (sel : List String) : filteredTags sel = mkFilter (tagsPred sel) := by
  funext L
  cases hsel : sel.isEmpty
  · simp [filteredTags, mkFilter, hsel]
    exact List.filter_congr (fun a _ => by simp [tagsPred, hsel])
  · simp [filteredTags, mkFilter, hsel]
    exact (List.filter_eq_self.mpr (fun a _ => by simp [tagsPred, hsel])).symm

/-- C4. The directory's displayed list is the sublist of the input whose
members satisfy the conjunction of the four filter predicates
(case-insensitive name search, status with "all" pass-through, country with
"all" pass-through, tag-superset with empty-selection pass-through), and
applying the four filter steps in any order yields that same list: the
predicates commute. -/
theorem directory_filter_conjunction_comm :
    ∀ (se stv co : String) (sel : List String) (L : List Student),
      displayedStudents se stv co sel L
        = L.filter (fun s => searchPred se s && statusPred stv s && countryPred co s && tagsPred sel s)
      ∧ ∀ (qs : List (Student → Bool)), qs.Perm (stepPreds se stv co sel) →
          applySteps (qs.map mkFilter) L = displayedStudents se stv co sel L := by
  intro se stv co sel L
  have hdisp : displayedStudents se stv co sel L
      = applySteps ((stepPreds se stv co sel).map mkFilter) L := by
    show filteredTags sel (filteredCountry co (filteredStatus stv (searched se L))) = _
    rw [searched_eq, filteredStatus_eq, filteredCountry_eq, filteredTags_eq]
    rfl
  have hconj : applySteps ((stepPreds se stv co sel).map mkFilter) L
      = L.filter (fun s => searchPred se s && statusPred stv s && countryPred co s && tagsPred sel s) := by
    rw [applySteps_map_mkFilter]
    exact List.filter_congr (fun s _ => by
      simp [stepPreds, List.all_cons, List.all_nil, Bool.and_true, Bool.and_assoc])
  constructor
  · rw [hdisp, hconj]
  · intro qs hq
    rw [applySteps_map_mkFilter, hdisp, applySteps_map_mkFilter]
    exact List.filter_congr (fun s _ => all_of_perm hq s)

/-- Witness for C4: swapping the first two filter steps on a concrete list
gives the same rows as the source's fixed order, and that row set is the
one student matching all four predicates. -/
theorem directory_filter_conjunction_comm_witness :
    applySteps ([statusPred "Applying", searchPred "a", countryPred "all",
                 tagsPred ["High intent"]].map mkFilter) sampleStudents
        = displayedStudents "a" "Applying" "all" ["High intent"] sampleStudents
      ∧ displayedStudents "a" "Applying" "all" ["High intent"] sampleStudents
        = [{ id := "s1", name := "Ada Lovelace", email := "ada@example.com", country := some "UK",
             application_status := "Applying", last_active := none, tags := some ["High intent"] }] :=
  ⟨(directory_filter_conjunction_comm "a" "Applying" "all" ["High intent"] sampleStudents).2
      _ (List.Perm.swap (searchPred "a") (statusPred "Applying")
          [countryPred "all", tagsPred ["High intent"]]),
   by rfl⟩

/-! ## Tag-toggle theorems -/

/-- C3 counterexample: toggling a tag on when it is already a member
appends it unconditionally, so the resulting list has a duplicate —
membership is not checked before insertion. -/
theorem toggle_on_duplicate_cex :
    computeNewTags ["High intent"] "High intent" true = ["High intent", "High intent"]
    ∧ ¬ (computeNewTags ["High intent"] "High intent" true).Nodup := by
  constructor
  · rfl
  · decide

/-- C3 amended: checking appends the tag (no membership check, so the
result can duplicate an existing member), unchecking removes every
occurrence; set-semantically the result is S ∪ \x7bt\x7d when checked and
S − \x7bt\x7d when unchecked, and it is duplicate-free provided the input is
duplicate-free and, when checking on, the tag was not already a member
(which the checkbox UI guarantees). -/
theorem computeNewTags_set_semantics :
    ∀ (S : List String) (t : String),
      computeNewTags S t true = S ++ [t]
      ∧ computeNewTags S t false = S.filter (fun x => x != t)
      ∧ (∀ x, x ∈ computeNewTags S t true ↔ (x ∈ S ∨ x = t))
      ∧ (∀ x, x ∈ computeNewTags S t false ↔ (x ∈ S ∧ x ≠ t))
      ∧ (t ∉ S → S.Nodup → (computeNewTags S t true).Nodup)
      ∧ (S.Nodup → (computeNewTags S t false).Nodup) := by
  intro S t
  refine ⟨rfl, rfl, ?_, ?_, ?_, ?_⟩
  · intro x
    simp [computeNewTags]
  · intro x
    simp [computeNewTags, List.mem_filter]
  · intro hnot hnd
    rw [show computeNewTags S t true = S ++ [t] from rfl, List.nodup_append]
    refine ⟨hnd, by simp, ?_⟩
    intro a ha hmem
    rw [List.mem_singleton] at hmem
    subst hmem
    exact hnot ha
  · intro hnd
    exact hnd.filter _

/-- Witness for the amended C3 at a concrete duplicate-free input. -/
theorem computeNewTags_set_semantics_witness :
    (computeNewTags ["High intent"] "Needs essay help" true).Nodup :=
  (computeNewTags_set_semantics ["High intent"] "Needs essay help").2.2.2.2.1
    (by decide) (by decide)

/-- C1 counterexample: after a first toggle whose server response differs
from the optimistic value, a failing second toggle does not restore the
Phase-1 snapshot (the pre-mutation `selectedTags`); it overwrites the
visible set with the last confirmed profile's tags instead. -/
theorem tag_rollback_not_snapshot_cex :
    (handleTagChangeResolve 2 (Except.error "HTTP 500")
        (handleTagChangeOptimistic "Students not contacted in 7 days" true afterFirstToggle)).selectedTags
      ≠ afterFirstToggle.selectedTags := by
  decide

/-- C1 amended: on failure the visible tag set is overwritten with
`student?.tags || []` — the tags of the last server-confirmed profile —
and an error toast carrying the failure detail is posted; this overwrite
equals the Phase-1 value exactly when the pre-mutation visible set agreed
with the confirmed profile's tags. -/
theorem tag_failure_reverts_to_confirmed :
    ∀ (st : ProfileState) (tag : String) (chk : Bool) (now : Nat) (emsg : String),
      (handleTagChangeResolve now (Except.error emsg) (handleTagChangeOptimistic tag chk st)).selectedTags
        = confirmedTags st
      ∧ Toast.mk now ("Error: " ++ emsg) ToastType.error
          ∈ (handleTagChangeResolve now (Except.error emsg) (handleTagChangeOptimistic tag chk st)).toasts
      ∧ (confirmedTags st = st.selectedTags →
          (handleTagChangeResolve now (Except.error emsg) (handleTagChangeOptimistic tag chk st)).selectedTags
            = st.selectedTags) := by
  intro st tag chk now emsg
  refine ⟨rfl, ?_, ?_⟩
  · simp [handleTagChangeResolve, handleTagChangeOptimistic, showToast]
  · intro h
    exact h

/-- Witness for the amended C1: from a freshly loaded state (where the
visible set agrees with the confirmed profile) a failing toggle restores
the pre-mutation visible set. -/
theorem tag_failure_reverts_to_confirmed_witness :
    (handleTagChangeResolve 9 (Except.error "HTTP 500")
        (handleTagChangeOptimistic "Needs essay help" true loadedProfileState)).selectedTags
      = loadedProfileState.selectedTags :=
  (tag_failure_reverts_to_confirmed loadedProfileState "Needs essay help" true 9 "HTTP 500").2.2
    (by decide)

/-- C2 counterexample: on success the server's returned profile replaces
the `student` slice, but the tag chips the page displays come from
`selectedTags`, which keeps the optimistic computation — they do not equal
the response's tags when the response differs from the optimistic guess. -/
theorem tag_success_displayed_not_server_cex :
    displayedTagChips (handleTagChangeResolve 1 (Except.ok serverProfile2)
        (handleTagChangeOptimistic "Needs essay help" true loadedProfileState))
      ≠ serverProfile2.tags.getD []
    ∧ (handleTagChangeResolve 1 (Except.ok serverProfile2)
        (handleTagChangeOptimistic "Needs essay help" true loadedProfileState)).student
      = some serverProfile2 := by
  constructor
  · decide
  · rfl

/-- C2 amended: a successful tag toggle stores the server's returned
profile object verbatim in the `student` slice, while the displayed tag
set remains the client's optimistic computation. -/
theorem tag_success_replaces_student_keeps_display :
    ∀ (st : ProfileState) (tag : String) (chk : Bool) (now : Nat) (sp : StudentProfile),
      (handleTagChangeResolve now (Except.ok sp) (handleTagChangeOptimistic tag chk st)).student = some sp
      ∧ displayedTagChips (handleTagChangeResolve now (Except.ok sp) (handleTagChangeOptimistic tag chk st))
          = computeNewTags st.selectedTags tag chk := by
  intro st tag chk now sp
  exact ⟨rfl, rfl⟩

/-! ## Communication-log theorems -/

/-- C5: adding a communication log changes no local state before the
create call resolves (the state at the suspension point is the input
state, so the log list length is unchanged while pending), and on success
the server-returned entry is prepended, appearing first. -/
theorem comm_log_add_deferred_prepend :
    ∀ (sid : String) (st : ProfileState) (now : Nat) (log : CommunicationLog),
      (handleAddLogFire sid st).1 = st
      ∧ (handleAddLogFire sid st).1.communicationLogs.length = st.communicationLogs.length
      ∧ (handleAddLogFire sid st).2
          = { student_id := sid, type := st.newLogType, content := st.newLogContent }
      ∧ (handleAddLogResolve now (Except.ok log) st).communicationLogs = log :: st.communicationLogs
      ∧ (handleAddLogResolve now (Except.ok log) st).communicationLogs.head? = some log := by
  intro sid st now log
  exact ⟨rfl, rfl, rfl, rfl, rfl⟩

/-- C10: when the create call fails, the log list, the draft form fields
and the modal flag are all unchanged and only an error toast is appended;
the form reset and modal close happen only on the success branch. -/
theorem comm_log_add_failure_atomic :
    ∀ (st : ProfileState) (now : Nat) (emsg : String),
      (handleAddLogResolve now (Except.error emsg) st).communicationLogs = st.communicationLogs
      ∧ (handleAddLogResolve now (Except.error emsg) st).newLogType = st.newLogType
      ∧ (handleAddLogResolve now (Except.error emsg) st).newLogContent = st.newLogContent
      ∧ (handleAddLogResolve now (Except.error emsg) st).isAddLogModalOpen = st.isAddLogModalOpen
      ∧ (handleAddLogResolve now (Except.error emsg) st).toasts
          = st.toasts ++ [Toast.mk now "Failed to add communication log. Please try again." ToastType.error]
      ∧ ∀ (log : CommunicationLog),
          (handleAddLogResolve now (Except.ok log) st).newLogType = "Email"
          ∧ (handleAddLogResolve now (Except.ok log) st).newLogContent = ""
          ∧ (handleAddLogResolve now (Except.ok log) st).isAddLogModalOpen = false := by
  intro st now emsg
  exact ⟨rfl, rfl, rfl, rfl, rfl, fun _ => ⟨rfl, rfl, rfl⟩⟩

/-! ## Toast lifecycle theorems -/

/-- C6: a posted toast is present immediately after posting; a one-shot
removal of its id is scheduled exactly 3000 ms after post time; firing
that timer, or dismissing first, removes every toast with that id; and
either removal acting on a state where the id is already absent leaves the
queue unchanged (a no-op). -/
theorem toast_lifecycle_spec :
    ∀ (now : Nat) (msg : String) (ty : ToastType) (st : ProfileState),
      Toast.mk now msg ty ∈ (showToast now msg ty st).toasts
      ∧ (now + 3000, now) ∈ (showToast now msg ty st).timers
      ∧ (∀ t ∈ (fireToastTimer (now + 3000) now (showToast now msg ty st)).toasts, t.id ≠ now)
      ∧ (∀ t ∈ (removeToast now (showToast now msg ty st)).toasts, t.id ≠ now)
      ∧ (∀ i, (∀ t ∈ st.toasts, t.id ≠ i) →
          (removeToast i st).toasts = st.toasts
          ∧ (fireToastTimer (now + 3000) i st).toasts = st.toasts) := by
  intro now msg ty st
  refine ⟨?_, ?_, ?_, ?_, ?_⟩
  · simp [showToast]
  · simp [showToast]
  · intro t ht
    simp [fireToastTimer, List.mem_filter] at ht
    exact ht.2
  · intro t ht
    simp [removeToast, List.mem_filter] at ht
    exact ht.2
  · intro i hi
    constructor
    · exact List.filter_eq_self.mpr (fun t htm => bne_iff_ne.mpr (hi t htm))
    · exact List.filter_eq_self.mpr (fun t htm => bne_iff_ne.mpr (hi t htm))

/-- Witness for C6: dismissing or firing the timer for an id absent from
the (empty) initial queue leaves the queue unchanged. -/
theorem toast_lifecycle_spec_witness :
    (removeToast 7 profileInit).toasts = profileInit.toasts
    ∧ (fireToastTimer 3100 7 profileInit).toasts = profileInit.toasts :=
  (toast_lifecycle_spec 100 "saved" ToastType.success profileInit).2.2.2.2 7 (by decide)

/-! ## API-client error-message theorems -/

/-- C7 counterexample: on a non-2xx response `getStudentStats` throws an
error whose message is a fixed string lacking the HTTP status. -/
theorem stats_error_lacks_status_cex :
    apiErrorMessage ApiOp.getStudentStats 500 "" = "Failed to fetch student statistics"
    ∧ containsSubstr (apiErrorMessage ApiOp.getStudentStats 500 "") (toString (500 : Nat)) = false := by
  constructor
  · rfl
  · decide

/-- C7 amended: every operation except `getStudentStats` throws an error
whose message carries the HTTP status; `updateStudentTags` additionally
carries the response body text; `getStudentStats` throws a fixed message
without the status. -/
theorem api_error_message_status :
    ∀ (op : ApiOp) (status : Nat) (body : String),
      (op ≠ ApiOp.getStudentStats →
        containsSubstr (apiErrorMessage op status body) (toString status) = true)
      ∧ containsSubstr (apiErrorMessage ApiOp.updateStudentTags status body) body = true
      ∧ apiErrorMessage ApiOp.getStudentStats status body = "Failed to fetch student statistics" := by
  intro op status body
  refine ⟨?_, ?_, rfl⟩
  · intro hop
    cases op with
    | getStudents => exact containsSubstr_suffix _ _
    | getStudentProfile => exact containsSubstr_suffix _ _
    | getCommunicationLogs => exact containsSubstr_suffix _ _
    | getAiSummary => exact containsSubstr_suffix _ _
    | sendFollowUpEmail => exact containsSubstr_suffix _ _
    | updateStudentNotes => exact containsSubstr_suffix _ _
    | updateStudentTags =>
      show containsSubL _ _ = true
      simp only [apiErrorMessage, String.data_append, List.append_assoc]
      exact containsSubL_prepend _ _ _ (containsSubL_self_append _ _)
    | addCommunicationLog => exact containsSubstr_suffix _ _
    | getStudentStats => exact absurd rfl hop
  · show containsSubL _ _ = true
    simp only [apiErrorMessage, String.data_append, List.append_assoc]
    exact containsSubL_prepend _ _ _ (containsSubL_prepend _ _ _
      (containsSubL_prepend _ _ _ (containsSubL_refl body.data)))

/-- Witness for the amended C7 at a concrete operation and status. -/
theorem api_error_message_status_witness :
    containsSubstr (apiErrorMessage ApiOp.getStudents 404 "") (toString (404 : Nat)) = true :=
  (api_error_message_status ApiOp.getStudents 404 "").1 (by decide)

/-! ## Login theorems -/

/-- C8: a validated submission answered with 2xx and an access token sets
the accessToken cookie — HTTP-only, same-site lax, secure exactly in
production, path "/", 7-day max age — and ends in a redirect signal to
"/dashboard" that propagates as a control-flow signal (the catch re-throws
it) instead of being converted to an application error; the reworked
variant in part_001 behaves identically. -/
theorem login_success_cookie_and_redirect :
    ∀ (token : String) (isProd : Bool) (getMsg : String → String),
      login true (FetchResult.success token) isProd getMsg
        = (LoginOutcome.redirectSignal (nextRedirectMessage "/dashboard"),
           some { name := "accessToken", value := token, httpOnly := true, secure := isProd,
                  sameSite := "lax", path := "/", maxAge := 60 * 60 * 24 * 7 })
      ∧ loginV2 true (FetchResult.success token) isProd getMsg
        = (LoginOutcome.redirectSignal (nextRedirectMessage "/dashboard"),
           some { name := "accessToken", value := token, httpOnly := true, secure := isProd,
                  sameSite := "lax", path := "/", maxAge := 60 * 60 * 24 * 7 }) := by
  intro token isProd getMsg
  have hc : containsSubstr (nextRedirectMessage "/dashboard") "NEXT_REDIRECT" = true := by decide
  constructor
  · simp [login, hc]
  · simp [loginV2]

/-! ## Read-failure surfacing theorems -/

/-- C9 counterexample: after a failed stats fetch the summary card renders
the stats grid with zero counts, not an error display, and a failed
communication-logs fetch leaves the profile state completely unchanged —
these two read failures are silently absorbed. -/
theorem read_failure_not_surfaced_cex :
    renderSummary (statsFetchFailure summaryInit) = SummaryView.statsView 0 0 0 0 0
    ∧ renderSummary (statsFetchFailure summaryInit) ≠ SummaryView.errorView
    ∧ fetchCommunicationLogsFailure loadedProfileState = loadedProfileState := by
  refine ⟨rfl, ?_, rfl⟩
  decide

/-- C9 amended: the list-students fetch and the profile fetch do enter a
per-section error display on failure, but the communication-logs fetch
leaves its state unchanged and the stats fetch can never set `isError`
(no setter exists), so the summary renders zero counts after a failure. -/
theorem read_failure_surfacing_amended :
    ∀ (msg se stv co : String) (sel : List String) (dst : DirectoryState) (pst : ProfileState)
      (sst : SummaryState),
      renderDirectory se stv co sel (directoryFetchFailure msg dst) = DirectoryView.errorView msg
      ∧ renderProfile (fetchStudentFailure msg pst) = ProfileView.errorView msg
      ∧ fetchCommunicationLogsFailure pst = pst
      ∧ (statsFetchFailure sst).isError = sst.isError
      ∧ renderSummary (statsFetchFailure summaryInit) = SummaryView.statsView 0 0 0 0 0 := by
  intro msg se stv co sel dst pst sst
  exact ⟨rfl, rfl, rfl, rfl, rfl⟩
